import Mathlib

/-!
Verification of the process-supervision core of `ailab_manager.py`
(repository thenullengine/homelab, file src/ai-lab/ailab_manager.py).

The manager is a tkinter GUI controlling three managed services
(ComfyUI, AI Toolkit, OneTrainer).  Each service has Install / Start /
Stop / Restart operations, per-service boolean in-flight flags
(`comfyui_installing`, `comfyui_starting`, ...), a tracked
`subprocess.Popen` handle (`comfyui_process`, ...), and a per-service
append-only log widget fed through `log_to_tab`.

This file is a shallow embedding of that code: the per-service logs are
lists of lines, the boolean flags are a record, subprocess results and
the psutil process world are explicit environments, and each lifecycle
function is translated into a pure Lean function over those
environments.  Line numbers in doc comments refer to
src/ai-lab/ailab_manager.py.
-/

namespace AILab

/-! ## Logs and `log_to_tab` (lines 580-592) -/

/-- The three per-service append-only logs.  In the source each one is a
text widget; a widget holding lines `l` corresponds to the list `l`,
and `insert(tk.END, message + "\n")` corresponds to appending
`[message]`. -/
structure Logs where
  comfyuiLog : List String
  aitoolkitLog : List String
  onetrainerLog : List String
deriving DecidableEq

/-- Translation of `log_to_tab(self, tab, message)` (lines 580-592):
dispatch on the tab string; the three known tabs append one line at the
end of the corresponding log; any other tab hits the `else: return`
branch and changes nothing.  The function is total: no branch raises. -/
def log_to_tab (tab message : String) (logs : Logs) : Logs :=
  if tab = "comfyui" then
    { logs with comfyuiLog := logs.comfyuiLog ++ [message] }
  else if tab = "aitoolkit" then
    { logs with aitoolkitLog := logs.aitoolkitLog ++ [message] }
  else if tab = "onetrainer" then
    { logs with onetrainerLog := logs.onetrainerLog ++ [message] }
  else
    logs

/-- Empty logs, the state right after the GUI is built. -/
def emptyLogs : Logs := { comfyuiLog := [], aitoolkitLog := [], onetrainerLog := [] }

/-! ## Per-service in-flight flags and operation admission
(`install_comfyui` lines 618-645, `start_comfyui` lines 887-905) -/

/-- The two per-service in-flight booleans the source keeps
(`<svc>_installing`, `<svc>_starting`; there is no stopping or
restarting flag in the source). -/
structure SvcFlags where
  installing : Bool
  starting : Bool
deriving DecidableEq

/-- Admission-relevant events of one service: the entry checks of
`install_comfyui` / `start_comfyui` and the `finally` blocks of the
background units that clear the flags. -/
inductive SvcOp
  | installReq
  | startReq
  | installFinally
  | startFinally
deriving DecidableEq

/-- One admission step.  `install_comfyui` (line 618) tests only
`comfyui_installing` and returns if it is set, otherwise sets it;
`start_comfyui` (line 887) tests only `comfyui_starting`.  Neither
entry check reads the other flag.  The `finally` events clear the
corresponding flag. -/
def svcStep (s : SvcFlags) : SvcOp → SvcFlags
  | SvcOp.installReq => if s.installing then s else { s with installing := true }
  | SvcOp.startReq => if s.starting then s else { s with starting := true }
  | SvcOp.installFinally => { s with installing := false }
  | SvcOp.startFinally => { s with starting := false }

/-- Run a sequence of admission events from the initial state
(both flags `False`, lines 57-62 of `__init__`). -/
def svcRun (ops : List SvcOp) : SvcFlags :=
  ops.foldl svcStep { installing := false, starting := false }

/-! ## Process-tree termination (`stop_comfyui` lines 976-1040,
`stop_onetrainer` lines 2005-2060) -/

/-- Observable actions of the psutil termination path.  `term p` is a
graceful `terminate()` delivered to pid `p` (an attempt that raised
`NoSuchProcess` delivers nothing); `waitGrace t` is
`psutil.wait_procs(children + [parent], timeout=t)`; `kill p` is a
forceful `kill()` delivered to pid `p`. -/
inductive SigEvent
  | term (pid : Nat)
  | waitGrace (timeout : Nat)
  | kill (pid : Nat)
deriving DecidableEq

/-- Environment of one termination request: the pid of the tracked
root, the descendant pids returned by `parent.children(recursive=True)`,
and, for the race windows the source handles, which pids are already
gone at each point.  `rootLookupGone` means `psutil.Process(pid)` or
`children()` raised `NoSuchProcess`; `childGone c` means
`child.terminate()` raised it; `rootTermGone` means
`parent.terminate()` raised it; `aliveAfterWait p` means `wait_procs`
reported `p` in its `alive` list; `killGone p` means `p.kill()`
raised `NoSuchProcess`. -/
structure StopEnv where
  rootPid : Nat
  children : List Nat
  rootLookupGone : Bool
  childGone : Nat → Bool
  rootTermGone : Bool
  aliveAfterWait : Nat → Bool
  killGone : Nat → Bool

/-- The child-termination loop (lines 1000-1006): each
`child.terminate()` is wrapped in its own
`try/except NoSuchProcess: pass`, so a gone child is skipped and the
loop continues with the remaining children. -/
def signal_children (gone : Nat → Bool) : List Nat → List SigEvent
  | [] => []
  | c :: rest =>
    if gone c then signal_children gone rest
    else SigEvent.term c :: signal_children gone rest

/-- The force-kill loop (lines 1014-1019): each `p.kill()` over the
`alive` list is wrapped in its own `try/except NoSuchProcess: pass`. -/
def kill_alive (gone : Nat → Bool) : List Nat → List SigEvent
  | [] => []
  | p :: rest =>
    if gone p then kill_alive gone rest
    else SigEvent.kill p :: kill_alive gone rest

/-- Translation of the psutil branch of `stop_comfyui`
(lines 994-1023; `stop_onetrainer` lines 2020-2047 is identical): the
whole enumerate/terminate/wait/kill block sits in one outer
`try/except psutil.NoSuchProcess: pass`.  Only `child.terminate()` and
`p.kill()` have their own inner handlers, so a `NoSuchProcess` raised
by the root lookup, by `children()`, or by `parent.terminate()`
escapes to the outer handler and the remaining steps are skipped. -/
def terminate_tree (e : StopEnv) : List SigEvent :=
  if e.rootLookupGone then []
  else
    let childSigs := signal_children e.childGone e.children
    if e.rootTermGone then childSigs
    else
      childSigs ++ [SigEvent.term e.rootPid, SigEvent.waitGrace 3] ++
        kill_alive e.killGone ((e.children ++ [e.rootPid]).filter e.aliveAfterWait)

/-- Concrete termination environment: root pid 1, one child pid 2 that
is alive throughout, and a root whose `terminate()` raises
`NoSuchProcess` (the root exited between enumeration and signalling). -/
def stopEnvRootGone : StopEnv :=
  { rootPid := 1
    children := [2]
    rootLookupGone := false
    childGone := fun _ => false
    rootTermGone := true
    aliveAfterWait := fun _ => true
    killGone := fun _ => false }

/-- Concrete termination environment with no race on the root: root
pid 1, children 2 and 3, child 3 already gone when signalled, child 2
still alive after the grace wait. -/
def stopEnvPlain : StopEnv :=
  { rootPid := 1
    children := [2, 3]
    rootLookupGone := false
    childGone := fun c => c == 3
    rootTermGone := false
    aliveAfterWait := fun p => p == 2
    killGone := fun _ => false }

/-! ## Stop admission (`stop_comfyui` lines 982-986,
`stop_onetrainer` lines 2009-2012, `stop_aitoolkit` lines 1647-1700) -/

/-- What a Stop request does before/instead of touching processes. -/
structure StopReport where
  reportedNotRunning : Bool
  askedConfirmation : Bool
  terminationAttempted : Bool
deriving DecidableEq

/-- Translation of the entry of `stop_comfyui` (lines 982-993):
if no process is tracked or `poll()` is not `None`, show the
"ComfyUI is not currently running." info box and return; otherwise ask
for confirmation and, on yes, run the termination.  No in-flight flag
is read or written on any path, so the flags pass through unchanged. -/
def stop_comfyui_entry (tracked pollExited confirmYes : Bool) (fl : SvcFlags) :
    StopReport × SvcFlags :=
  if !tracked || pollExited then
    ({ reportedNotRunning := true, askedConfirmation := false,
       terminationAttempted := false }, fl)
  else if confirmYes then
    ({ reportedNotRunning := false, askedConfirmation := true,
       terminationAttempted := true }, fl)
  else
    ({ reportedNotRunning := false, askedConfirmation := true,
       terminationAttempted := false }, fl)

/-- Translation of the entry of `stop_onetrainer` (lines 2009-2019),
which has the same structure as `stop_comfyui`. -/
def stop_onetrainer_entry (tracked pollExited confirmYes : Bool) (fl : SvcFlags) :
    StopReport × SvcFlags :=
  if !tracked || pollExited then
    ({ reportedNotRunning := true, askedConfirmation := false,
       terminationAttempted := false }, fl)
  else if confirmYes then
    ({ reportedNotRunning := false, askedConfirmation := true,
       terminationAttempted := true }, fl)
  else
    ({ reportedNotRunning := false, askedConfirmation := true,
       terminationAttempted := false }, fl)

/-- Translation of the entry of `stop_aitoolkit` (lines 1647-1700):
there is no tracked/exited guard at all — the function immediately asks
for confirmation, and on yes runs the psutil block, which terminates
the tracked tree only if one is tracked and alive but in every case
scans `psutil.process_iter` for Node processes related to AI Toolkit
or port 8675 and terminates, waits on and force-kills those.  No
"not running" report exists on any path. -/
def stop_aitoolkit_entry (tracked pollExited confirmYes : Bool) (fl : SvcFlags) :
    StopReport × SvcFlags :=
  if confirmYes then
    ({ reportedNotRunning := false, askedConfirmation := true,
       terminationAttempted := true }, fl)
  else
    ({ reportedNotRunning := false, askedConfirmation := true,
       terminationAttempted := false }, fl)

/-! ## The `ImportError` fallback of `stop_comfyui` (lines 1026-1032) -/

/-- Events of the non-psutil fallback branch. -/
inductive FallbackEvent
  | term
  | raiseNameError
  | sleepWait
  | pollAndKill
deriving DecidableEq

/-- Statements of the fallback body, in source order:
`self.comfyui_process.terminate()`, then `time.sleep(2)`, then the
poll-and-`kill()` check. -/
inductive FbStmt
  | terminateRoot
  | sleepViaTime
  | pollThenKill

/-- Execute the fallback statements under a Python-scoping environment:
`timeBound` records whether the local name `time` is bound.  Inside
`stop_comfyui` the statement `import time` makes `time` a local of the
method, and it only becomes bound when that statement executes.
Evaluating `time.sleep(2)` with `time` unbound raises
`UnboundLocalError`, a subclass of `NameError`, which nothing in the
surrounding `try` catches (the `except Exception` clause belongs to
the same `try` and cannot catch an exception raised inside the
`except ImportError` handler), so the remaining statements are
skipped. -/
def execFallback : List FbStmt → Bool → List FallbackEvent
  | [], _ => []
  | FbStmt.terminateRoot :: rest, tb => FallbackEvent.term :: execFallback rest tb
  | FbStmt.sleepViaTime :: rest, tb =>
    if tb then FallbackEvent.sleepWait :: execFallback rest tb
    else [FallbackEvent.raiseNameError]
  | FbStmt.pollThenKill :: rest, tb => FallbackEvent.pollAndKill :: execFallback rest tb

/-- The fallback body of `stop_comfyui` (lines 1026-1032). -/
def comfyui_fallback_body : List FbStmt :=
  [FbStmt.terminateRoot, FbStmt.sleepViaTime, FbStmt.pollThenKill]

/-- Whether the local `time` is bound when the fallback runs: the
`try` block (lines 990-991) is `import psutil` followed by
`import time`, and the `ImportError` that selects this fallback is
raised by `import psutil`, before `import time` executes — so `time`
is unbound. -/
def time_bound_in_fallback : Bool := false

/-- The trace the fallback branch of `stop_comfyui` actually produces. -/
def stop_comfyui_fallback_trace : List FallbackEvent :=
  execFallback comfyui_fallback_body time_bound_in_fallback

/-! ## Controller/UI state touched by the background units -/

/-- The pieces of controller and UI state a background unit reads or
writes: the logs, the two in-flight flags of the service the unit
belongs to, whether a process handle is tracked, the enabled state of
the Install and Start triggers, and the modal dialogs shown so far
(by title). -/
structure UIState where
  logs : Logs
  installing : Bool
  starting : Bool
  processTracked : Bool
  installBtnEnabled : Bool
  startBtnEnabled : Bool
  dialogs : List String
deriving DecidableEq

/-- A state as seen mid-operation: a Start in flight, its process
tracked, the Start trigger disabled. -/
def midStartUI : UIState :=
  { logs := emptyLogs, installing := false, starting := true,
    processTracked := true, installBtnEnabled := true,
    startBtnEnabled := false, dialogs := [] }

/-! ## Installation pipelines
(`_run_comfyui_installation` lines 646-739,
`_run_onetrainer_install` lines 1850-1927, `_run_command` lines 594-602) -/

/-- Failure policy of one installation step.  `fatal` steps are those
whose `returncode` the body checks and, on non-zero, reports and stops
(by `return` in the ComfyUI body, by `raise` in the OneTrainer body);
`warn` steps are those run through `_run_command` or with an
unchecked result, after which the body continues regardless. -/
inductive Policy
  | fatal
  | warn
deriving DecidableEq

/-- Overall pipeline outcome as reported to the user. -/
inductive PipeResult
  | success
  | failure
deriving DecidableEq

/-- Run the steps of a pipeline in order starting at step index `b`,
given the exit code `ec i` each step `i` would return.  Returns the
indices of the steps actually invoked and the overall result.  A
`fatal` step with non-zero exit stops the run there with `failure`;
a `warn` step never stops the run. -/
def runPipelineAux : List Policy → (Nat → Int) → Nat → List Nat × PipeResult
  | [], _, _ => ([], PipeResult.success)
  | Policy.fatal :: rest, ec, b =>
    if ec b = 0 then
      let r := runPipelineAux rest ec (b + 1)
      (b :: r.1, r.2)
    else ([b], PipeResult.failure)
  | Policy.warn :: rest, ec, b =>
    let r := runPipelineAux rest ec (b + 1)
    (b :: r.1, r.2)

/-- An install background unit: run the pipeline from step 0, then
show the failure or success dialog, and in the `finally` clear the
installing flag and re-enable the Install trigger
(lines 734-739 and 1923-1927). -/
def run_install_unit (policies : List Policy) (ec : Nat → Int) (s : UIState) :
    UIState × (List Nat × PipeResult) :=
  let r := runPipelineAux policies ec 0
  ({ s with
      installing := false
      installBtnEnabled := true
      dialogs := s.dialogs ++
        [match r.2 with
          | PipeResult.failure => "Installation Error"
          | PipeResult.success => "Success"] },
    r)

/-- The step policies of `_run_comfyui_installation` in source order:
git clone (checked, fatal), venv creation (checked, fatal), then pip
upgrade, PyTorch, PyTorch verification, ninja/packaging/wheel,
sageattention, requirements, soundfile, custom-node cloning and
custom-node dependencies, all best-effort (warn). -/
def comfyuiInstallPolicies : List Policy :=
  [Policy.fatal, Policy.fatal, Policy.warn, Policy.warn, Policy.warn,
   Policy.warn, Policy.warn, Policy.warn, Policy.warn, Policy.warn, Policy.warn]

/-- The step policies of `_run_onetrainer_install` in source order:
git clone (fatal, by raise), venv creation (fatal, by raise), pip
upgrade (result never checked, warn), requirements via `_run_command`
(warn). -/
def onetrainerInstallPolicies : List Policy :=
  [Policy.fatal, Policy.fatal, Policy.warn, Policy.warn]

/-- Captured result of one external command as `_run_command` sees it:
the non-blank stdout lines, the stderr text, and the exit code. -/
structure CmdResult where
  stdout : List String
  stderr : String
  returncode : Int
deriving DecidableEq

/-- The stdout-echo loop of `_run_command` (lines 596-599): each
non-blank stdout line is appended to the tab log with a two-space
indent. -/
def log_stdout_lines (tab : String) (out : List String) (logs : Logs) : Logs :=
  out.foldl (fun l ln => log_to_tab tab ("  " ++ ln) l) logs

/-- Translation of `_run_command` (lines 594-602): echo the stdout
lines, then append the `ERROR:` line only when the exit code is
non-zero AND stderr is non-empty — a failing command with empty stderr
logs nothing about the failure.  The function always returns (the
pipeline proceeds regardless of the exit code). -/
def run_command (res : CmdResult) (tab : String) (logs : Logs) : Logs :=
  let l1 := log_stdout_lines tab res.stdout logs
  if res.returncode ≠ 0 ∧ res.stderr ≠ "" then
    log_to_tab tab ("ERROR: " ++ res.stderr) l1
  else l1

/-- Translation of one iteration of the custom-node clone loop of
`_clone_custom_nodes` (lines 763-771): log the clone attempt, run
`git clone`, and on non-zero exit append a WARNING line
unconditionally (no stderr condition); the loop then continues with
the next node either way. -/
def clone_node_step (returncode : Int) (nodeName : String) (logs : Logs) : Logs :=
  let l1 := log_to_tab "comfyui" ("  Cloning " ++ nodeName ++ "...") logs
  if returncode ≠ 0 then
    log_to_tab "comfyui" ("    WARNING: Failed to clone " ++ nodeName) l1
  else l1

/-- A failing command with empty stderr. -/
def failNoStderr : CmdResult := { stdout := [], stderr := "", returncode := 1 }

/-- A failing command with one stdout line and stderr "boom". -/
def failWithStderr : CmdResult :=
  { stdout := ["out"], stderr := "boom", returncode := 1 }

/-! ## Start units (`_run_comfyui` lines 908-975,
`_run_onetrainer` lines 1941-1999, `_run_aitoolkit_start` lines 1539-1588) -/

/-- Environment of one start unit: whether `subprocess.Popen`
succeeds, the output lines the process writes (in order, as
`readline` returns them before end-of-stream), whether the process has
already been observed exited (`poll()` not `None`) at the check before
forwarding the i-th line, and the exit code `wait()` returns. -/
structure StartEnv where
  spawnOk : Bool
  lines : List String
  exitedAt : Nat → Bool
  returnCode : Int

/-- The output-pump loop (lines 955-959): read a line; if `poll()` is
not `None`, break — dropping the line just read and everything still
buffered; otherwise forward the line to the log and continue.  Returns
the lines actually forwarded. -/
def pumpLoop : List String → (Nat → Bool) → Nat → List String
  | [], _, _ => []
  | line :: rest, exitedAt, i =>
    if exitedAt i then []
    else line :: pumpLoop rest exitedAt (i + 1)

/-- Result of one start unit: the final controller state, the
process-output lines forwarded to the log sink, how many browser-open
side effects the unit triggered, and how many error dialogs it
showed. -/
structure StartRun where
  finalState : UIState
  forwarded : List String
  browserOpens : Nat
  errorDialogs : Nat

/-- Translation of `_run_comfyui` (lines 908-975).  On a successful
spawn: `time.sleep(2)` then `self.root.after(100, ...)` schedules the
browser open exactly once; the pump loop forwards lines; after
end-of-stream, `wait()` gives the exit code and a closing status line
is logged.  On a spawn failure the `except` logs the error and shows
the "Start Error" dialog.  Either way the `finally` (lines 971-974)
clears the tracked process, clears `comfyui_starting` and re-enables
the Start trigger.  The banner and command-echo log lines are
config-dependent and abbreviated to one line here. -/
def run_comfyui (env : StartEnv) (s : UIState) : StartRun :=
  let logsH := log_to_tab "comfyui" "Starting ComfyUI" s.logs
  if env.spawnOk then
    let fwd := pumpLoop env.lines env.exitedAt 0
    let logs1 := fwd.foldl (fun l ln => log_to_tab "comfyui" ln l) logsH
    let logs2 :=
      if env.returnCode = 0 then
        log_to_tab "comfyui" "[ComfyUI stopped]" logs1
      else
        log_to_tab "comfyui"
          ("[ComfyUI exited with code " ++ toString env.returnCode ++ "]") logs1
    { finalState :=
        { s with logs := logs2, processTracked := false, starting := false,
                 startBtnEnabled := true }
      forwarded := fwd
      browserOpens := 1
      errorDialogs := 0 }
  else
    { finalState :=
        { s with logs := log_to_tab "comfyui" "ERROR: failed to start" logsH,
                 dialogs := s.dialogs ++ ["Start Error"],
                 processTracked := false, starting := false,
                 startBtnEnabled := true }
      forwarded := []
      browserOpens := 0
      errorDialogs := 1 }

/-- Translation of `_run_onetrainer` (lines 1941-1999), the same
structure as `_run_comfyui`: one scheduled browser open after the
settle delay, the same pump loop, the same guaranteed cleanup. -/
def run_onetrainer (env : StartEnv) (s : UIState) : StartRun :=
  let logsH := log_to_tab "onetrainer" "Starting OneTrainer" s.logs
  if env.spawnOk then
    let fwd := pumpLoop env.lines env.exitedAt 0
    let logs1 := fwd.foldl (fun l ln => log_to_tab "onetrainer" ln l) logsH
    let logs2 :=
      if env.returnCode = 0 then
        log_to_tab "onetrainer" "[OneTrainer stopped]" logs1
      else
        log_to_tab "onetrainer"
          ("[OneTrainer exited with code " ++ toString env.returnCode ++ "]") logs1
    { finalState :=
        { s with logs := logs2, processTracked := false, starting := false,
                 startBtnEnabled := true }
      forwarded := fwd
      browserOpens := 1
      errorDialogs := 0 }
  else
    { finalState :=
        { s with logs := log_to_tab "onetrainer" "ERROR: failed to start" logsH,
                 dialogs := s.dialogs ++ ["Start Error"],
                 processTracked := false, starting := false,
                 startBtnEnabled := true }
      forwarded := []
      browserOpens := 0
      errorDialogs := 1 }

/-- Translation of `_run_aitoolkit_start` (lines 1539-1588): the same
spawn/pump/cleanup structure, but with `time.sleep(3)` and NO browser
open anywhere in the unit — the generated `Start-AI-Toolkit.bat`
itself polls the server and opens the browser, the Python controller
never does. -/
def run_aitoolkit_start (env : StartEnv) (s : UIState) : StartRun :=
  let logsH := log_to_tab "aitoolkit" "Starting AI Toolkit" s.logs
  if env.spawnOk then
    let fwd := pumpLoop env.lines env.exitedAt 0
    let logs1 := fwd.foldl (fun l ln => log_to_tab "aitoolkit" ln l) logsH
    let logs2 :=
      if env.returnCode = 0 then
        log_to_tab "aitoolkit" "[AI Toolkit stopped]" logs1
      else
        log_to_tab "aitoolkit"
          ("[AI Toolkit exited with code " ++ toString env.returnCode ++ "]") logs1
    { finalState :=
        { s with logs := logs2, processTracked := false, starting := false,
                 startBtnEnabled := true }
      forwarded := fwd
      browserOpens := 0
      errorDialogs := 0 }
  else
    { finalState :=
        { s with logs := log_to_tab "aitoolkit" "ERROR: failed to start" logsH,
                 dialogs := s.dialogs ++ ["Start Error"],
                 processTracked := false, starting := false,
                 startBtnEnabled := true }
      forwarded := []
      browserOpens := 0
      errorDialogs := 1 }

/-- A successful, quiet start: spawn succeeds, no output, exit 0, the
process observed alive at every check. -/
def envOkStart : StartEnv :=
  { spawnOk := true, lines := [], exitedAt := fun _ => false, returnCode := 0 }

/-- A start whose process writes five lines and exits with code 0, but
whose exit is observed already at the first `poll()` check — the
process exited while its output was still buffered. -/
def envFiveLines : StartEnv :=
  { spawnOk := true
    lines := ["line1", "line2", "line3", "line4", "line5"]
    exitedAt := fun _ => true
    returnCode := 0 }

/-- A successful start with two output lines, the process observed
alive at every check. -/
def envTwoLines : StartEnv :=
  { spawnOk := true
    lines := ["alpha", "beta"]
    exitedAt := fun _ => false
    returnCode := 0 }

/-! ## How a background unit exits
(the `except`/`finally` tails, lines 734-739, 968-974, 1996-1999) -/

/-- The three ways a background unit reaches its tail: the body ran to
the end, the body stopped early at a failed fatal step (`return` or a
caught raise), or an unexpected exception reached the
`except Exception` handler with message `msg`. -/
inductive UnitOutcome
  | ok
  | fatalStepFail
  | exn (msg : String)

/-- The tail of `_run_comfyui_installation` (lines 734-739): the
`except Exception` handler logs the error and shows the
"Installation Error" dialog; the `finally` always clears
`comfyui_installing` and re-enables the Install button. -/
def run_comfyui_installation_exit (o : UnitOutcome) (s : UIState) : UIState :=
  let s1 :=
    match o with
    | UnitOutcome.exn msg =>
      { s with logs := log_to_tab "comfyui" ("ERROR: " ++ msg) s.logs,
               dialogs := s.dialogs ++ ["Installation Error"] }
    | _ => s
  { s1 with installing := false, installBtnEnabled := true }

/-- The tail of `_run_comfyui` (lines 968-974): the `except Exception`
handler logs and shows the "Start Error" dialog; the `finally` always
clears the tracked process, clears `comfyui_starting` and re-enables
the Start button. -/
def run_comfyui_exit (o : UnitOutcome) (s : UIState) : UIState :=
  let s1 :=
    match o with
    | UnitOutcome.exn msg =>
      { s with logs := log_to_tab "comfyui" ("ERROR: " ++ msg) s.logs,
               dialogs := s.dialogs ++ ["Start Error"] }
    | _ => s
  { s1 with processTracked := false, starting := false, startBtnEnabled := true }

/-- The tail of `_run_onetrainer` (lines 1996-1999), identical in
structure to the tail of `_run_comfyui`. -/
def run_onetrainer_exit (o : UnitOutcome) (s : UIState) : UIState :=
  let s1 :=
    match o with
    | UnitOutcome.exn msg =>
      { s with logs := log_to_tab "onetrainer" ("ERROR: " ++ msg) s.logs,
               dialogs := s.dialogs ++ ["Start Error"] }
    | _ => s
  { s1 with processTracked := false, starting := false, startBtnEnabled := true }

/-! ## Theorems for C10 and C2 -/

/-- Claim C10: `log_to_tab` with a tab other than "comfyui",
"aitoolkit" or "onetrainer" is a total no-op (it returns the logs
unchanged, raising nothing), and for the known tabs it only ever
appends at the end of the corresponding log, never removing or
modifying existing lines. -/
theorem C10_log_to_tab_spec (tab message : String) (logs : Logs) :
    (tab ≠ "comfyui" → tab ≠ "aitoolkit" → tab ≠ "onetrainer" →
      log_to_tab tab message logs = logs) ∧
    (∃ t, (log_to_tab tab message logs).comfyuiLog = logs.comfyuiLog ++ t) ∧
    (∃ t, (log_to_tab tab message logs).aitoolkitLog = logs.aitoolkitLog ++ t) ∧
    (∃ t, (log_to_tab tab message logs).onetrainerLog = logs.onetrainerLog ++ t) ∧
    (log_to_tab "comfyui" message logs).comfyuiLog = logs.comfyuiLog ++ [message] ∧
    (log_to_tab "aitoolkit" message logs).aitoolkitLog = logs.aitoolkitLog ++ [message] ∧
    (log_to_tab "onetrainer" message logs).onetrainerLog = logs.onetrainerLog ++ [message] := by
  unfold log_to_tab
  refine ⟨fun h1 h2 h3 => by simp [h1, h2, h3], ?_, ?_, ?_, by simp, by simp, by simp⟩
  · split
    · exact ⟨[message], rfl⟩
    · split
      · exact ⟨[], by simp⟩
      · split
        · exact ⟨[], by simp⟩
        · exact ⟨[], by simp⟩
  · split
    · exact ⟨[], by simp⟩
    · split
      · exact ⟨[message], rfl⟩
      · split
        · exact ⟨[], by simp⟩
        · exact ⟨[], by simp⟩
  · split
    · exact ⟨[], by simp⟩
    · split
      · exact ⟨[], by simp⟩
      · split
        · exact ⟨[message], rfl⟩
        · exact ⟨[], by simp⟩

/-- Witness for C10 at the concrete unknown tab "bogus". -/
theorem C10_log_to_tab_spec_witness :
    ("bogus" : String) ≠ "comfyui" ∧
    ((("bogus" : String) ≠ "comfyui" → ("bogus" : String) ≠ "aitoolkit" →
        ("bogus" : String) ≠ "onetrainer" →
        log_to_tab "bogus" "hello" emptyLogs = emptyLogs) ∧
      (∃ t, (log_to_tab "bogus" "hello" emptyLogs).comfyuiLog = emptyLogs.comfyuiLog ++ t) ∧
      (∃ t, (log_to_tab "bogus" "hello" emptyLogs).aitoolkitLog = emptyLogs.aitoolkitLog ++ t) ∧
      (∃ t, (log_to_tab "bogus" "hello" emptyLogs).onetrainerLog = emptyLogs.onetrainerLog ++ t) ∧
      (log_to_tab "comfyui" "hello" emptyLogs).comfyuiLog = emptyLogs.comfyuiLog ++ ["hello"] ∧
      (log_to_tab "aitoolkit" "hello" emptyLogs).aitoolkitLog = emptyLogs.aitoolkitLog ++ ["hello"] ∧
      (log_to_tab "onetrainer" "hello" emptyLogs).onetrainerLog =
        emptyLogs.onetrainerLog ++ ["hello"]) :=
  ⟨by decide, C10_log_to_tab_spec "bogus" "hello" emptyLogs⟩

/-- Claim C2 counterexample: the state with both `installing` and
`starting` true is reachable — a Start is admitted (setting
`starting`), then an Install request is admitted while the Start is
still in flight, because `install_comfyui` checks only the
`installing` flag.  This refutes the claimed invariant that at most
one in-flight indicator is true at any time. -/
theorem C2_install_during_start_counterexample :
    (svcRun [SvcOp.startReq, SvcOp.installReq]).installing = true ∧
    (svcRun [SvcOp.startReq, SvcOp.installReq]).starting = true := by
  decide

/-- Claim C2 (amended): each operation excludes only a duplicate of its
own kind — an Install request is rejected (state unchanged) while an
Install is in flight, and a Start request while a Start is in flight —
but an Install request arriving while only a Start is in flight is
admitted and sets `installing`, so both flags can be true at once. -/
theorem C2_same_kind_exclusion_amended (s t : SvcFlags)
    (h1 : s.installing = true) (h2 : t.starting = true) :
    svcStep s SvcOp.installReq = s ∧
    svcStep t SvcOp.startReq = t ∧
    svcStep { installing := false, starting := true } SvcOp.installReq =
      { installing := true, starting := true } := by
  refine ⟨?_, ?_, by decide⟩
  · simp [svcStep, h1]
  · simp [svcStep, h2]

/-- Witness for the amended C2 at the concrete state with both flags set. -/
theorem C2_same_kind_exclusion_amended_witness :
    (SvcFlags.mk true true).installing = true ∧
    (svcStep ⟨true, true⟩ SvcOp.installReq = ⟨true, true⟩ ∧
      svcStep ⟨true, true⟩ SvcOp.startReq = ⟨true, true⟩ ∧
      svcStep { installing := false, starting := true } SvcOp.installReq =
        { installing := true, starting := true }) :=
  ⟨rfl, C2_same_kind_exclusion_amended ⟨true, true⟩ ⟨true, true⟩ rfl rfl⟩

/-! ## Theorems for C1, C4, C9 -/

/-- The child loop delivers a graceful terminate to exactly the
children that are still there when signalled, in enumeration order; a
gone child is skipped and the loop continues. -/
theorem signal_children_eq (gone : Nat → Bool) (l : List Nat) :
    signal_children gone l = (l.filter (fun c => !gone c)).map SigEvent.term := by
  induction l with
  | nil => rfl
  | cons c rest ih =>
    simp only [signal_children, List.filter_cons]
    by_cases h : gone c
    · simp [h, ih]
    · simp [h, ih]

/-- The kill loop delivers a forceful kill to exactly the processes of
the alive list that are still there, in order. -/
theorem kill_alive_eq (gone : Nat → Bool) (l : List Nat) :
    kill_alive gone l = (l.filter (fun p => !gone p)).map SigEvent.kill := by
  induction l with
  | nil => rfl
  | cons p rest ih =>
    simp only [kill_alive, List.filter_cons]
    by_cases h : gone p
    · simp [h, ih]
    · simp [h, ih]

/-- Claim C1 counterexample: in the environment where the tracked root
raises NoSuchProcess at its `terminate()` while its child pid 2 stays
alive, the code delivers the graceful terminate to the child and then
stops — the grace wait never happens and the still-alive child is
never force-killed, because the NoSuchProcess from the root escapes to
the outer handler and aborts the remaining steps.  This refutes the
claim that a no-such-process error at any signalling step is ignored
and does not abort the remaining steps. -/
theorem C1_root_gone_skips_escalation_counterexample :
    terminate_tree stopEnvRootGone = [SigEvent.term 2] ∧
    stopEnvRootGone.aliveAfterWait 2 = true ∧
    SigEvent.kill 2 ∉ terminate_tree stopEnvRootGone ∧
    SigEvent.waitGrace 3 ∉ terminate_tree stopEnvRootGone := by
  decide

/-- Claim C1 (amended): provided the root lookup and the root
`terminate()` do not themselves raise NoSuchProcess, the termination
delivers a graceful terminate to every still-present descendant (a
gone child is skipped, ignored, and the loop continues), then to the
root, then waits with the 3-second grace period, then force-kills
exactly the processes reported still alive after the wait (a process
gone by kill time is skipped and ignored).  A NoSuchProcess raised by
the root lookup or the root terminate, however, aborts the remaining
steps. -/
theorem C1_terminate_tree_amended (e : StopEnv)
    (h1 : e.rootLookupGone = false) (h2 : e.rootTermGone = false) :
    terminate_tree e =
      (e.children.filter (fun c => !e.childGone c)).map SigEvent.term ++
        [SigEvent.term e.rootPid, SigEvent.waitGrace 3] ++
        (((e.children ++ [e.rootPid]).filter e.aliveAfterWait).filter
            (fun p => !e.killGone p)).map SigEvent.kill := by
  simp [terminate_tree, h1, h2, signal_children_eq, kill_alive_eq]

/-- Witness for the amended C1 at the concrete environment
`stopEnvPlain` (root 1, children 2 and 3, child 3 gone at signal time,
child 2 alive after the wait). -/
theorem C1_terminate_tree_amended_witness :
    stopEnvPlain.rootLookupGone = false ∧ stopEnvPlain.rootTermGone = false ∧
    terminate_tree stopEnvPlain =
      (stopEnvPlain.children.filter (fun c => !stopEnvPlain.childGone c)).map SigEvent.term ++
        [SigEvent.term stopEnvPlain.rootPid, SigEvent.waitGrace 3] ++
        (((stopEnvPlain.children ++ [stopEnvPlain.rootPid]).filter
              stopEnvPlain.aliveAfterWait).filter
            (fun p => !stopEnvPlain.killGone p)).map SigEvent.kill :=
  ⟨rfl, rfl, C1_terminate_tree_amended stopEnvPlain rfl rfl⟩

/-- Claim C4 counterexample: a Stop of AI Toolkit with no tracked
process (tracked = false) and a confirming user produces no
"not running" report and does attempt termination (the
`psutil.process_iter` scan for Node processes runs unconditionally) —
so the claimed guard does not hold for every managed service. -/
theorem C4_stop_aitoolkit_no_guard_counterexample :
    (stop_aitoolkit_entry false false true ⟨false, false⟩).1.reportedNotRunning = false ∧
    (stop_aitoolkit_entry false false true ⟨false, false⟩).1.terminationAttempted = true := by
  decide

/-- Claim C4 (amended): for ComfyUI and OneTrainer, a Stop invoked
when no process is tracked or the tracked process has already exited
is rejected synchronously with the "not running" report, asks no
confirmation, attempts no termination, and leaves the in-flight flags
unchanged.  (AI Toolkit has no such guard: its Stop always asks
confirmation and, on yes, proceeds to terminate.) -/
theorem C4_stop_not_running_amended (tracked pollExited confirmYes : Bool)
    (fl : SvcFlags) (h : tracked = false ∨ pollExited = true) :
    stop_comfyui_entry tracked pollExited confirmYes fl =
      ({ reportedNotRunning := true, askedConfirmation := false,
         terminationAttempted := false }, fl) ∧
    stop_onetrainer_entry tracked pollExited confirmYes fl =
      ({ reportedNotRunning := true, askedConfirmation := false,
         terminationAttempted := false }, fl) := by
  rcases h with h | h <;> subst h <;>
    simp [stop_comfyui_entry, stop_onetrainer_entry]

/-- Witness for the amended C4 at the concrete input with nothing
tracked and a confirming user. -/
theorem C4_stop_not_running_amended_witness :
    ((false : Bool) = false ∨ (false : Bool) = true) ∧
    (stop_comfyui_entry false false true ⟨false, false⟩ =
        (⟨true, false, false⟩, ⟨false, false⟩) ∧
      stop_onetrainer_entry false false true ⟨false, false⟩ =
        (⟨true, false, false⟩, ⟨false, false⟩)) :=
  ⟨Or.inl rfl, C4_stop_not_running_amended false false true ⟨false, false⟩ (Or.inl rfl)⟩

/-- Claim C9 counterexample: the fallback trace starts with the
graceful terminate of the tracked process — the unbound-name error is
raised only afterwards, at `time.sleep(2)` — refuting the claim that
the fallback raises the NameError before terminating the tracked
process. -/
theorem C9_fallback_order_counterexample :
    stop_comfyui_fallback_trace.head? = some FallbackEvent.term ∧
    stop_comfyui_fallback_trace ≠ [FallbackEvent.raiseNameError] ∧
    FallbackEvent.term ∈ stop_comfyui_fallback_trace := by
  decide

/-- Claim C9 (amended): when `import psutil` raises ImportError, the
fallback first delivers the graceful `terminate()` to the tracked
process and then raises a NameError (UnboundLocalError) evaluating the
unbound local `time` at `time.sleep(2)` — so the wait and the
conditional force-kill never run, and the terminate-wait-kill fallback
never completes.  Had `time` been bound, the fallback would have run
terminate, sleep, then poll-and-kill. -/
theorem C9_fallback_name_error_amended :
    stop_comfyui_fallback_trace =
      [FallbackEvent.term, FallbackEvent.raiseNameError] ∧
    FallbackEvent.pollAndKill ∉ stop_comfyui_fallback_trace ∧
    FallbackEvent.sleepWait ∉ stop_comfyui_fallback_trace ∧
    execFallback comfyui_fallback_body true =
      [FallbackEvent.term, FallbackEvent.sleepWait, FallbackEvent.pollAndKill] := by
  decide

/-! ## Theorems for C3, C5, C6, C7, C8 -/

/-- Whatever the exit-observation schedule, the pump loop forwards a
prefix of the stream: some `take k` of the lines read. -/
theorem pumpLoop_eq_take (l : List String) (f : Nat → Bool) :
    ∀ i, ∃ k, pumpLoop l f i = l.take k := by
  induction l with
  | nil => intro i; exact ⟨0, rfl⟩
  | cons line rest ih =>
    intro i
    by_cases h : f i
    · exact ⟨0, by simp [pumpLoop, h]⟩
    · obtain ⟨k, hk⟩ := ih (i + 1)
      exact ⟨k + 1, by simp [pumpLoop, h, hk]⟩

/-- If the process is observed still running at every check, the pump
loop forwards every line. -/
theorem pumpLoop_complete (l : List String) (f : Nat → Bool) :
    ∀ i, (∀ j, j < l.length → f (i + j) = false) → pumpLoop l f i = l := by
  induction l with
  | nil => intro i _; rfl
  | cons line rest ih =>
    intro i h
    have h0 : f i = false := by simpa using h 0 (by simp)
    have hrec : ∀ j, j < rest.length → f (i + 1 + j) = false := by
      intro j hj
      have heq : i + 1 + j = i + (j + 1) := by omega
      rw [heq]
      exact h (j + 1) (by simpa using Nat.succ_lt_succ hj)
    simp [pumpLoop, h0, ih (i + 1) hrec]

/-- Running a pipeline whose first failing fatal step (relative to the
base index `b`) is at offset `i` invokes no step past `b + i` and
resolves to `failure`. -/
theorem runPipelineAux_fatal_stop (l : List Policy) (ec : Nat → Int) :
    ∀ b i, l[i]? = some Policy.fatal → ec (b + i) ≠ 0 →
      (∀ j, j < i → l[j]? = some Policy.fatal → ec (b + j) = 0) →
      (∀ j ∈ (runPipelineAux l ec b).1, j ≤ b + i) ∧
        (runPipelineAux l ec b).2 = PipeResult.failure := by
  induction l with
  | nil =>
    intro b i hi _ _
    simp at hi
  | cons p rest ih =>
    intro b i hi hne hreach
    cases i with
    | zero =>
      have hp : p = Policy.fatal := by simpa using hi
      subst hp
      have hb : ¬ ec b = 0 := by simpa using hne
      refine ⟨?_, by simp [runPipelineAux, hb]⟩
      intro j hj
      simp [runPipelineAux, hb] at hj
      omega
    | succ i =>
      have hi2 : rest[i]? = some Policy.fatal := by simpa using hi
      have hne2 : ec (b + 1 + i) ≠ 0 := by
        have heq : b + 1 + i = b + (i + 1) := by omega
        rw [heq]; exact hne
      have hreach2 : ∀ j, j < i → rest[j]? = some Policy.fatal →
          ec (b + 1 + j) = 0 := by
        intro j hj hfj
        have heq : b + 1 + j = b + (j + 1) := by omega
        rw [heq]
        exact hreach (j + 1) (by omega) (by simpa using hfj)
      obtain ⟨ihmem, ihres⟩ := ih (b + 1) i hi2 hne2 hreach2
      cases p with
      | fatal =>
        have hb : ec b = 0 := by
          have := hreach 0 (by omega) (by simp)
          simpa using this
        refine ⟨?_, by simp [runPipelineAux, hb, ihres]⟩
        intro j hj
        simp [runPipelineAux, hb] at hj
        rcases hj with rfl | hj
        · omega
        · have := ihmem j hj
          omega
      | warn =>
        refine ⟨?_, by simp [runPipelineAux, ihres]⟩
        intro j hj
        simp [runPipelineAux] at hj
        rcases hj with rfl | hj
        · omega
        · have := ihmem j hj
          omega

/-- Claim C3: whichever way a background Install or Start unit exits —
normal completion, a fatal-step stop, or an unexpected exception — the
`finally` tail clears the in-flight flag, re-enables the UI trigger
and (for start units) clears the tracked process; the state never
stays stuck in Installing or Starting. -/
theorem C3_background_unit_cleanup (o : UnitOutcome) (env : StartEnv)
    (policies : List Policy) (ec : Nat → Int) (s : UIState) :
    (run_comfyui_installation_exit o s).installing = false ∧
    (run_comfyui_installation_exit o s).installBtnEnabled = true ∧
    (run_comfyui_exit o s).starting = false ∧
    (run_comfyui_exit o s).startBtnEnabled = true ∧
    (run_comfyui_exit o s).processTracked = false ∧
    (run_onetrainer_exit o s).starting = false ∧
    (run_onetrainer_exit o s).processTracked = false ∧
    (run_comfyui env s).finalState.starting = false ∧
    (run_onetrainer env s).finalState.starting = false ∧
    (run_aitoolkit_start env s).finalState.starting = false ∧
    (run_install_unit policies ec s).1.installing = false := by
  by_cases hs : env.spawnOk <;> cases o <;>
    simp [run_comfyui_installation_exit, run_comfyui_exit, run_onetrainer_exit,
      run_comfyui, run_onetrainer, run_aitoolkit_start, run_install_unit, hs]

/-- Claim C5 counterexample: a successful start whose process writes
five lines and exits with code 0, but whose exit is already observed
at the first poll check, forwards zero of the five lines to the log
sink — refuting "the LogSink receives exactly those N lines". -/
theorem C5_dropped_lines_counterexample :
    envFiveLines.spawnOk = true ∧
    envFiveLines.lines.length = 5 ∧
    envFiveLines.returnCode = 0 ∧
    (run_comfyui envFiveLines midStartUI).forwarded = [] := by
  decide

/-- Claim C5 (amended): for a successful start whose process exits
with code 0, the log sink receives, in order, a prefix of the emitted
lines — all of them when the process is observed still running at
every poll check, but lines read after the exit is observed are
dropped; the final state is Idle (starting cleared, no tracked
process) and no error dialog is shown. -/
theorem C5_output_forwarding_amended (env : StartEnv) (s : UIState)
    (h1 : env.spawnOk = true) (h2 : env.returnCode = 0) :
    (∃ k, (run_comfyui env s).forwarded = env.lines.take k) ∧
    ((∀ j, j < env.lines.length → env.exitedAt j = false) →
      (run_comfyui env s).forwarded = env.lines) ∧
    (run_comfyui env s).finalState.starting = false ∧
    (run_comfyui env s).finalState.processTracked = false ∧
    (run_comfyui env s).errorDialogs = 0 := by
  have hfwd : (run_comfyui env s).forwarded = pumpLoop env.lines env.exitedAt 0 := by
    simp [run_comfyui, h1]
  refine ⟨?_, ?_, ?_, ?_, ?_⟩
  · rw [hfwd]; exact pumpLoop_eq_take env.lines env.exitedAt 0
  · intro hall
    rw [hfwd]
    exact pumpLoop_complete env.lines env.exitedAt 0
      (fun j hj => by simpa using hall j hj)
  · simp [run_comfyui, h1]
  · simp [run_comfyui, h1]
  · simp [run_comfyui, h1]

/-- Witness for the amended C5 at the concrete two-line run with the
process alive at every check. -/
theorem C5_output_forwarding_amended_witness :
    envTwoLines.spawnOk = true ∧
    envTwoLines.returnCode = 0 ∧
    (run_comfyui envTwoLines midStartUI).forwarded = envTwoLines.lines ∧
    (run_comfyui envTwoLines midStartUI).finalState.starting = false ∧
    (run_comfyui envTwoLines midStartUI).errorDialogs = 0 := by
  have h := C5_output_forwarding_amended envTwoLines midStartUI rfl rfl
  exact ⟨rfl, rfl, h.2.1 (fun j hj => rfl), h.2.2.1, h.2.2.2.2⟩

/-- Claim C6: in any installation pipeline, a fatal-policy step at
position i that fails (non-zero exit), all earlier fatal steps having
succeeded, stops the pipeline there: no step past i is invoked, the
pipeline resolves to a reported failure (the "Installation Error"
dialog), and the service returns to Idle (installing cleared). -/
theorem C6_fatal_step_aborts (policies : List Policy) (ec : Nat → Int)
    (i : Nat) (s : UIState)
    (hstep : policies[i]? = some Policy.fatal)
    (hfail : ec i ≠ 0)
    (hreach : ∀ j, j < i → policies[j]? = some Policy.fatal → ec j = 0) :
    (∀ j ∈ (run_install_unit policies ec s).2.1, j ≤ i) ∧
    (run_install_unit policies ec s).2.2 = PipeResult.failure ∧
    (run_install_unit policies ec s).1.dialogs =
      s.dialogs ++ ["Installation Error"] ∧
    (run_install_unit policies ec s).1.installing = false := by
  obtain ⟨hmem, hres⟩ := runPipelineAux_fatal_stop policies ec 0 i
    (by simpa using hstep) (by simpa using hfail)
    (fun j hj hf => by simpa using hreach j hj hf)
  refine ⟨?_, ?_, ?_, ?_⟩
  · intro j hj
    have := hmem j (by simpa [run_install_unit] using hj)
    omega
  · simpa [run_install_unit] using hres
  · simp [run_install_unit, hres]
  · simp [run_install_unit]

/-- Witness for C6: the concrete ComfyUI pipeline with its first step
(the fatal git clone) failing with exit code 1. -/
theorem C6_fatal_step_aborts_witness :
    comfyuiInstallPolicies[0]? = some Policy.fatal ∧
    (fun _ : Nat => (1 : Int)) 0 ≠ 0 ∧
    (∀ j ∈ (run_install_unit comfyuiInstallPolicies (fun _ => 1) midStartUI).2.1,
      j ≤ 0) ∧
    (run_install_unit comfyuiInstallPolicies (fun _ => 1) midStartUI).2.2 =
      PipeResult.failure ∧
    (run_install_unit comfyuiInstallPolicies (fun _ => 1) midStartUI).1.dialogs =
      midStartUI.dialogs ++ ["Installation Error"] ∧
    (run_install_unit comfyuiInstallPolicies (fun _ => 1) midStartUI).1.installing =
      false := by
  have h := C6_fatal_step_aborts comfyuiInstallPolicies (fun _ => 1) 0 midStartUI
    (by decide) (by decide) (fun j hj _ => absurd hj (Nat.not_lt_zero j))
  exact ⟨by decide, by decide, h.1, h.2.1, h.2.2.1, h.2.2.2⟩

/-- Claim C7 counterexample: a Warn-policy command that fails with
exit code 1 but produces no stderr appends nothing at all to the log —
no warning line — refuting "a warning line is appended ... including
one that produces no error-stream output". -/
theorem C7_silent_warn_failure_counterexample :
    failNoStderr.returncode ≠ 0 ∧
    run_command failNoStderr "comfyui" emptyLogs = emptyLogs := by
  decide

/-- Claim C7 (amended): a Warn-policy step never stops the pipeline —
the next step is invoked and the overall result is unchanged whatever
the exit code — but the warning line is conditional: a `_run_command`
step appends the ERROR line exactly when the failing command produced
non-empty stderr (a failing command with empty stderr logs nothing),
while a custom-node clone step appends its WARNING line
unconditionally on failure. -/
theorem C7_warn_step_amended (res : CmdResult) (tab : String) (logs : Logs)
    (rest : List Policy) (ec : Nat → Int) (b : Nat) (nodeName : String)
    (rc : Int) (h1 : res.returncode ≠ 0) (h2 : rc ≠ 0) :
    (runPipelineAux (Policy.warn :: rest) ec b).1 =
      b :: (runPipelineAux rest ec (b + 1)).1 ∧
    (runPipelineAux (Policy.warn :: rest) ec b).2 =
      (runPipelineAux rest ec (b + 1)).2 ∧
    (res.stderr ≠ "" → run_command res tab logs =
      log_to_tab tab ("ERROR: " ++ res.stderr)
        (log_stdout_lines tab res.stdout logs)) ∧
    (res.stderr = "" → run_command res tab logs =
      log_stdout_lines tab res.stdout logs) ∧
    clone_node_step rc nodeName logs =
      log_to_tab "comfyui" ("    WARNING: Failed to clone " ++ nodeName)
        (log_to_tab "comfyui" ("  Cloning " ++ nodeName ++ "...") logs) := by
  refine ⟨rfl, rfl, ?_, ?_, ?_⟩
  · intro hs; simp [run_command, h1, hs]
  · intro hs; simp [run_command, hs]
  · simp [clone_node_step, h2]

/-- Witness for the amended C7 at a concrete failing command with
stderr "boom" and a concrete failing clone of node "NodeA". -/
theorem C7_warn_step_amended_witness :
    failWithStderr.returncode ≠ 0 ∧ (1 : Int) ≠ 0 ∧
    (runPipelineAux (Policy.warn :: [Policy.fatal]) (fun _ => 0) 0).1 =
      0 :: (runPipelineAux [Policy.fatal] (fun _ => 0) 1).1 ∧
    run_command failWithStderr "comfyui" emptyLogs =
      log_to_tab "comfyui" ("ERROR: " ++ failWithStderr.stderr)
        (log_stdout_lines "comfyui" failWithStderr.stdout emptyLogs) ∧
    clone_node_step 1 "NodeA" emptyLogs =
      log_to_tab "comfyui" ("    WARNING: Failed to clone " ++ "NodeA")
        (log_to_tab "comfyui" ("  Cloning " ++ "NodeA" ++ "...") emptyLogs) := by
  have h := C7_warn_step_amended failWithStderr "comfyui" emptyLogs
    [Policy.fatal] (fun _ => 0) 0 "NodeA" 1 (by decide) (by decide)
  exact ⟨by decide, by decide, h.1, h.2.2.1 (by decide), h.2.2.2.2⟩

/-- Claim C8 counterexample: a successful AI Toolkit start triggers
the browser-open side effect zero times from the controller — refuting
"never zero times" for every managed service.  (The generated batch
script, not the Python controller, opens the AI Toolkit browser, and
only after polling the server, not after a fixed settle delay.) -/
theorem C8_aitoolkit_no_browser_counterexample :
    envOkStart.spawnOk = true ∧
    (run_aitoolkit_start envOkStart midStartUI).browserOpens = 0 := by
  decide

/-- Claim C8 (amended): for ComfyUI and OneTrainer every start whose
spawn succeeds schedules the browser-open side effect exactly once,
after the fixed settle delay; the AI Toolkit start unit never triggers
it (the generated startup script does, outside the controller). -/
theorem C8_browser_once_amended (env : StartEnv) (s : UIState)
    (h : env.spawnOk = true) :
    (run_comfyui env s).browserOpens = 1 ∧
    (run_onetrainer env s).browserOpens = 1 ∧
    (run_aitoolkit_start env s).browserOpens = 0 := by
  simp [run_comfyui, run_onetrainer, run_aitoolkit_start, h]

/-- Witness for the amended C8 at the concrete successful start. -/
theorem C8_browser_once_amended_witness :
    envOkStart.spawnOk = true ∧
    ((run_comfyui envOkStart midStartUI).browserOpens = 1 ∧
      (run_onetrainer envOkStart midStartUI).browserOpens = 1 ∧
      (run_aitoolkit_start envOkStart midStartUI).browserOpens = 0) :=
  ⟨rfl, C8_browser_once_amended envOkStart midStartUI rfl⟩

end AILab
